import Mathlib

/-!
Verification of the segment-matching and merge core of the nirvana REST
router (service/rest/router/regexp.go): the pattern node (regexpNode) and
the catch-all node (fullMatchRegexpNode), their Match and Merge methods.
Collaborators (handler, children, executors, the compiled regular
expression engine) are external to the file under study and are modelled
abstractly; the two node types and their control flow are translated
line by line from the source.
-/

namespace Nirvana

/-- A Go string, modelled as its list of characters. The router only
slices at separator positions, and the separator is the single byte 0x2f,
so character-level slicing coincides with the byte-level slicing of Go. -/
abbrev GoString := List Char

/-- The capture sink (the Container collaborator). Set prepends and a
lookup finds the most recent write, which models the insert-or-overwrite
contract of the collaborator. -/
abbrev Container := List (String × GoString)

/-- Models Container.Set(key, value). -/
def Container.Set (c : Container) (k : String) (v : GoString) : Container :=
  (k, v) :: c

/-- Models strings.IndexByte(path, 0x2f): the first index of the
separator in the path, or -1 when the path has no separator. -/
def goIndexSlash : GoString → Int
  | [] => -1
  | ch :: rest =>
    if ch = '/' then 0
    else
      let r := goIndexSlash rest
      if r < 0 then -1 else r + 1

/-- The index value after the fix-up of regexpNode.Match:
index := strings.IndexByte(path, 0x2f); if index < 0 then index = len(path). -/
def goIndex (path : GoString) : Nat :=
  if goIndexSlash path < 0 then path.length else (goIndexSlash path).toNat

/-- segment := path[:index] after the fix-up, the leading segment of the
path: the prefix up to the next separator, or the whole path if none. -/
def leadingSegment (path : GoString) : GoString := path.take (goIndex path)

/-- The index struct of the source: the key and its position among the
submatches of the compiled pattern. -/
structure Index where
  Key : String
  Pos : Nat
  deriving DecidableEq

/-- Both node kinds report the Regexp route kind. -/
inductive RouteKind where
  | Regexp
  deriving DecidableEq

/-- The errors the core can return. The first four model the router
error factories used in the source (routerNotFound, unknownRouterType,
unmatchedRouterRegexp, unmatchedRouterKey); external models any opaque
error produced by a collaborator. -/
inductive RouterError where
  | routerNotFound
  | unknownRouterType (kind : RouteKind) (typeName : String)
  | unmatchedRouterRegexp (selfExp otherExp : String)
  | unmatchedRouterKey (selfKey otherKey : String)
  | external (code : Nat)
  deriving DecidableEq

/-- regexpNode: the pattern node. H is the state of the embedded handler
collaborator, C the state of the embedded children collaborator. The
compiled regular expression is modelled by its FindStringSubmatch
function re: given a segment it returns none when the pattern does not
match, and the submatch list (slot 0 the whole match) when it does. -/
structure RegexpNode (H C : Type) where
  handler : H
  children : C
  indices : List Index
  exp : String
  re : GoString → Option (List GoString)

/-- fullMatchRegexpNode: the catch-all node, holding only the key for
its single captured value beside the two collaborators. -/
structure FullMatchRegexpNode (H C : Type) where
  handler : H
  children : C
  key : String

/-- The operations of the collaborators, opaque to the core: children
matching (which may write the sink), handler pack, terminal executor
selection (unionExecutor), handler merge and children merge. The merge
operations return the possibly mutated self state beside the error, so
that partial mutation is representable. The context argument of the Go
methods is only passed through to collaborators and is absorbed into
these operations. -/
structure Collab (H C E : Type) where
  cmatch : C → Container → GoString → Except RouterError E × Container
  pack : H → E → Except RouterError E
  union : H → Except RouterError E
  hmerge : H → H → Option RouterError × H
  cmerge : C → C → Option RouterError × C

/-- The capture-committing loop of regexpNode.Match:
for _, i := range n.indices { c.Set(i.Key, result[i.Pos]) }. -/
def setIndices (c : Container) (inds : List Index) (result : List GoString) : Container :=
  inds.foldl (fun acc i => Container.Set acc i.Key (result.getD i.Pos [])) c

/-- The middle block of regexpNode.Match: if index < len(path) then
delegate path[index:] to the children and pack the result through the
handler, else resolve the terminal executor. Returns the error or
executor together with the sink as the downstream code left it. -/
def regexpDownstream {H C E : Type} (ops : Collab H C E) (n : RegexpNode H C)
    (c : Container) (path : GoString) (index : Nat) :
    Except RouterError E × Container :=
  if index < path.length then
    match ops.cmatch n.children c (path.drop index) with
    | (.ok e, c₁) => (ops.pack n.handler e, c₁)
    | (.error err, c₁) => (.error err, c₁)
  else
    (ops.union n.handler, c)

/-- regexpNode.Match. Returns the (executor, error) pair, the node state
after the call, and the sink state after the call. -/
def RegexpNode.Match {H C E : Type} (ops : Collab H C E) (n : RegexpNode H C)
    (c : Container) (path : GoString) :
    Except RouterError E × RegexpNode H C × Container :=
  match n.re (leadingSegment path) with
  | none => (.error RouterError.routerNotFound, n, c)
  | some result =>
    match regexpDownstream ops n c path (goIndex path) with
    | (.error err, c₁) => (.error err, n, c₁)
    | (.ok e, c₁) => (.ok e, n, setIndices c₁ n.indices result)

/-- The branch block of fullMatchRegexpNode.Match: if the first
separator sits strictly after position 0 then delegate path[index:],
else set index = len(path) and resolve the terminal executor. Returns
the result, the final value of index, and the sink the downstream code
left. -/
def FullMatchRegexpNode.downstream {H C E : Type} (ops : Collab H C E)
    (n : FullMatchRegexpNode H C) (c : Container) (path : GoString) :
    Except RouterError E × Nat × Container :=
  if goIndexSlash path > 0 then
    let index := (goIndexSlash path).toNat
    match ops.cmatch n.children c (path.drop index) with
    | (.ok e, c₁) => (ops.pack n.handler e, index, c₁)
    | (.error err, c₁) => (.error err, index, c₁)
  else
    (ops.union n.handler, path.length, c)

/-- fullMatchRegexpNode.Match. Returns the (executor, error) pair, the
node state after the call, and the sink state after the call; on success
it commits c.Set(n.key, path[:index]). -/
def FullMatchRegexpNode.Match {H C E : Type} (ops : Collab H C E)
    (n : FullMatchRegexpNode H C) (c : Container) (path : GoString) :
    Except RouterError E × FullMatchRegexpNode H C × Container :=
  match FullMatchRegexpNode.downstream ops n c path with
  | (.error err, _, c₁) => (.error err, n, c₁)
  | (.ok e, index, c₁) => (.ok e, n, Container.Set c₁ n.key (path.take index))

/-- The two concrete node types of the file, as the sum the runtime type
assertion of Merge distinguishes. -/
inductive Router (H C : Type) where
  | regexpNode (n : RegexpNode H C)
  | fullMatchRegexpNode (n : FullMatchRegexpNode H C)

/-- Kind(): both node types report the Regexp kind. -/
def Router.Kind {H C : Type} : Router H C → RouteKind := fun _ => RouteKind.Regexp

/-- Models reflect.TypeOf(r).String() for the two concrete types. -/
def Router.typeName {H C : Type} : Router H C → String
  | .regexpNode _ => "*router.regexpNode"
  | .fullMatchRegexpNode _ => "*router.fullMatchRegexpNode"

/-- Merge of the two node types, translated from regexpNode.Merge and
fullMatchRegexpNode.Merge. Returns the (router, error) pair of Go and,
beside it, the state of the receiver after the call: the receiver is
mutated in place by the collaborator merges, so a failing children merge
leaves the handler merge applied. -/
def Router.Merge {H C E : Type} (ops : Collab H C E) :
    Router H C → Router H C → Except RouterError (Router H C) × Router H C
  | .regexpNode n, .fullMatchRegexpNode m =>
    (.error (.unknownRouterType (Router.Kind (.fullMatchRegexpNode m))
        (Router.typeName (H := H) (C := C) (.fullMatchRegexpNode m))), .regexpNode n)
  | .regexpNode n, .regexpNode node =>
    if n.exp ≠ node.exp then
      (.error (.unmatchedRouterRegexp n.exp node.exp), .regexpNode n)
    else
      let hr := ops.hmerge n.handler node.handler
      let n₁ : RegexpNode H C := { n with handler := hr.2 }
      match hr.1 with
      | some err => (.error err, .regexpNode n₁)
      | none =>
        let cr := ops.cmerge n₁.children node.children
        let n₂ : RegexpNode H C := { n₁ with children := cr.2 }
        match cr.1 with
        | some err => (.error err, .regexpNode n₂)
        | none => (.ok (.regexpNode n₂), .regexpNode n₂)
  | .fullMatchRegexpNode n, .regexpNode m =>
    (.error (.unknownRouterType (Router.Kind (.regexpNode m))
        (Router.typeName (H := H) (C := C) (.regexpNode m))), .fullMatchRegexpNode n)
  | .fullMatchRegexpNode n, .fullMatchRegexpNode node =>
    if n.key ≠ node.key then
      (.error (.unmatchedRouterKey n.key node.key), .fullMatchRegexpNode n)
    else
      let hr := ops.hmerge n.handler node.handler
      let n₁ : FullMatchRegexpNode H C := { n with handler := hr.2 }
      match hr.1 with
      | some err => (.error err, .fullMatchRegexpNode n₁)
      | none =>
        let cr := ops.cmerge n₁.children node.children
        let n₂ : FullMatchRegexpNode H C := { n₁ with children := cr.2 }
        match cr.1 with
        | some err => (.error err, .fullMatchRegexpNode n₂)
        | none => (.ok (.fullMatchRegexpNode n₂), .fullMatchRegexpNode n₂)

/-- Models the FindStringSubmatch function of the Go regular expression
compiled from the pattern of one or more decimal digits: the leftmost
maximal run of digits anywhere in the segment, unanchored, none when the
segment holds no digit. -/
def goFindDigits (s : GoString) : Option (List GoString) :=
  let rest := s.dropWhile (fun ch => !ch.isDigit)
  if rest = [] then none
  else some [rest.takeWhile (fun ch => ch.isDigit)]

/-- Models the FindStringSubmatch function of the digit pattern wrapped
in one capturing group, so slot 1 equals the whole match of slot 0. -/
def goFindDigitsGroup (s : GoString) : Option (List GoString) :=
  match goFindDigits s with
  | none => none
  | some r => some (r ++ r)

/-- Collaborator operations that always succeed: children matching
returns executor 0 and leaves the sink alone, pack is the identity,
the terminal selection returns executor 7, merges succeed without
mutation. -/
def opsOk : Collab Unit Unit Nat where
  cmatch := fun _ c _ => (.ok 0, c)
  pack := fun _ e => .ok e
  union := fun _ => .ok 7
  hmerge := fun a _ => (none, a)
  cmerge := fun a _ => (none, a)

/-- A concrete pattern node for the digit pattern with one group and a
single capture index: key id at submatch position 1. -/
def dNode : RegexpNode Unit Unit where
  handler := ()
  children := ()
  indices := [⟨"id", 1⟩]
  exp := "([0-9]+)"
  re := goFindDigitsGroup

/-- A concrete catch-all node with key k. -/
def fNode : FullMatchRegexpNode Unit Unit where
  handler := ()
  children := ()
  key := "k"

lemma setIndices_cons (c : Container) (a : Index) (t : List Index)
    (r : List GoString) :
    setIndices c (a :: t) r =
      setIndices (Container.Set c a.Key (r.getD a.Pos [])) t r := rfl

lemma lookup_Set_self (c : Container) (k : String) (v : GoString) :
    List.lookup k (Container.Set c k v) = some v := by
  simp [Container.Set, List.lookup]

lemma lookup_Set_ne (c : Container) (k k₁ : String) (v : GoString)
    (h : k ≠ k₁) : List.lookup k (Container.Set c k₁ v) = List.lookup k c := by
  have hb : (k == k₁) = false := beq_eq_false_iff_ne.mpr h
  simp [Container.Set, List.lookup, hb]

lemma setIndices_lookup_notMem (c : Container) (inds : List Index)
    (r : List GoString) (k : String) (hk : ∀ i ∈ inds, i.Key ≠ k) :
    List.lookup k (setIndices c inds r) = List.lookup k c := by
  induction inds generalizing c with
  | nil => rfl
  | cons a t ih =>
    rw [setIndices_cons, ih _ (fun i hi => hk i (List.mem_cons_of_mem a hi)),
      lookup_Set_ne]
    exact fun h => hk a (List.mem_cons_self a t) h.symm

lemma setIndices_lookup_mem (c : Container) (inds : List Index)
    (r : List GoString) (i : Index)
    (hnd : inds.Pairwise (fun a b => a.Key ≠ b.Key)) (hmem : i ∈ inds) :
    List.lookup i.Key (setIndices c inds r) = some (r.getD i.Pos []) := by
  induction inds generalizing c with
  | nil => cases hmem
  | cons a t ih =>
    rw [setIndices_cons]
    rcases List.mem_cons.mp hmem with h | h
    · subst h
      rw [setIndices_lookup_notMem _ _ _ _
        (fun j hj => ((List.pairwise_cons.mp hnd).1 j hj).symm)]
      exact lookup_Set_self _ _ _
    · exact ih _ (List.pairwise_cons.mp hnd).2 h

lemma getD_some {α : Type} (l : List α) (n : Nat) (d : α)
    (h : n < l.length) : l.get? n = some (l.getD n d) := by
  induction l generalizing n with
  | nil => simp at h
  | cons a t ih =>
    cases n with
    | zero => rfl
    | succ m => exact ih m (by simpa using h)

/-- C2: for every path whose leading segment does not satisfy the
compiled pattern of the pattern node, Match fails with the NotFound
error, the node is unchanged and the capture sink receives no writes at
all. -/
theorem c2_no_match_notFound_sink_untouched {H C E : Type} (ops : Collab H C E)
    (n : RegexpNode H C) (c : Container) (path : GoString)
    (h : n.re (leadingSegment path) = none) :
    RegexpNode.Match ops n c path = (.error RouterError.routerNotFound, n, c) := by
  simp [RegexpNode.Match, h]

/-- Witness for C2: the digit-pattern node on path abc fails with
NotFound and leaves the empty sink empty. -/
theorem c2_witness :
    RegexpNode.Match opsOk dNode [] ['a', 'b', 'c'] =
      (.error RouterError.routerNotFound, dNode, []) :=
  c2_no_match_notFound_sink_untouched opsOk dNode [] ['a', 'b', 'c'] (by decide)

/-- C9: Match on either node kind leaves the node itself (pattern
source, compiled matcher, capture indices, key, handler and children
collaborators) unchanged for every input path; only the sink component
of the result can differ from its input. -/
theorem c9_match_leaves_node_unchanged {H C E : Type} (ops : Collab H C E) :
    (∀ (n : RegexpNode H C) (c : Container) (path : GoString),
      (RegexpNode.Match ops n c path).2.1 = n)
    ∧ (∀ (n : FullMatchRegexpNode H C) (c : Container) (path : GoString),
      (FullMatchRegexpNode.Match ops n c path).2.1 = n) := by
  constructor
  · intro n c path
    unfold RegexpNode.Match
    split
    · rfl
    · split <;> rfl
  · intro n c path
    unfold FullMatchRegexpNode.Match
    split <;> rfl

lemma fullMatch_captures_segment {H C E : Type} (ops : Collab H C E)
    (n : FullMatchRegexpNode H C)
    (hch : ∀ c p, ∃ e c₁, ops.cmatch n.children c p = (.ok e, c₁))
    (hpk : ∀ e, ∃ e₁, ops.pack n.handler e = .ok e₁)
    (hun : ∃ e, ops.union n.handler = .ok e)
    (c : Container) (path : GoString) (hseg : leadingSegment path ≠ []) :
    ∃ e, (FullMatchRegexpNode.Match ops n c path).1 = .ok e ∧
      List.lookup n.key (FullMatchRegexpNode.Match ops n c path).2.2 =
        some (leadingSegment path) := by
  rcases lt_trichotomy (goIndexSlash path) 0 with hlt | heq | hgt
  · obtain ⟨e, hu⟩ := hun
    have hnot : ¬ goIndexSlash path > 0 := by omega
    have hd : FullMatchRegexpNode.downstream ops n c path = (.ok e, path.length, c) := by
      simp [FullMatchRegexpNode.downstream, hnot, hu]
    have hseg₁ : leadingSegment path = path := by
      simp [leadingSegment, goIndex, hlt]
    refine ⟨e, ?_, ?_⟩
    · simp [FullMatchRegexpNode.Match, hd]
    · simp [FullMatchRegexpNode.Match, hd, hseg₁, List.take_length, lookup_Set_self]
  · exfalso
    apply hseg
    simp [leadingSegment, goIndex, heq]
  · obtain ⟨e, c₁, hc⟩ := hch c (path.drop (goIndexSlash path).toNat)
    obtain ⟨e₁, hp⟩ := hpk e
    have hd : FullMatchRegexpNode.downstream ops n c path =
        (.ok e₁, (goIndexSlash path).toNat, c₁) := by
      simp [FullMatchRegexpNode.downstream, hgt, hc, hp]
    have hseg₁ : path.take (goIndexSlash path).toNat = leadingSegment path := by
      have hnot : ¬ goIndexSlash path < 0 := by omega
      simp [leadingSegment, goIndex, hnot]
    refine ⟨e₁, ?_, ?_⟩
    · simp [FullMatchRegexpNode.Match, hd]
    · simp [FullMatchRegexpNode.Match, hd, hseg₁, lookup_Set_self]

/-- C1: whenever the leading segment of the path satisfies the compiled
pattern of a pattern node (and the downstream collaborators resolve
successfully, the capture keys being distinct and the positions valid),
Match succeeds and the sink ends up mapping each declared key to the
submatch at its position; for a catch-all node, for every path with a
non-empty leading segment Match succeeds and the sink maps the single
key to the entire segment. -/
theorem c1_match_success_captures {H C E : Type} (ops : Collab H C E)
    (n : RegexpNode H C) (nf : FullMatchRegexpNode H C)
    (hch : ∀ c p, ∃ e c₁, ops.cmatch n.children c p = (.ok e, c₁))
    (hpk : ∀ e, ∃ e₁, ops.pack n.handler e = .ok e₁)
    (hun : ∃ e, ops.union n.handler = .ok e)
    (hchf : ∀ c p, ∃ e c₁, ops.cmatch nf.children c p = (.ok e, c₁))
    (hpkf : ∀ e, ∃ e₁, ops.pack nf.handler e = .ok e₁)
    (hunf : ∃ e, ops.union nf.handler = .ok e)
    (hnd : n.indices.Pairwise (fun a b => a.Key ≠ b.Key)) :
    (∀ (c : Container) (path : GoString) (result : List GoString),
      n.re (leadingSegment path) = some result →
      (∀ i ∈ n.indices, i.Pos < result.length) →
      ∃ e, (RegexpNode.Match ops n c path).1 = .ok e ∧
        ∀ i ∈ n.indices,
          List.lookup i.Key (RegexpNode.Match ops n c path).2.2 = result.get? i.Pos)
    ∧ (∀ (c : Container) (path : GoString), leadingSegment path ≠ [] →
      ∃ e, (FullMatchRegexpNode.Match ops nf c path).1 = .ok e ∧
        List.lookup nf.key (FullMatchRegexpNode.Match ops nf c path).2.2 =
          some (leadingSegment path)) := by
  constructor
  · intro c path result hre hpos
    have hd : ∃ e c₁, regexpDownstream ops n c path (goIndex path) = (.ok e, c₁) := by
      by_cases hidx : goIndex path < path.length
      · obtain ⟨e, c₁, hc⟩ := hch c (path.drop (goIndex path))
        obtain ⟨e₁, hp⟩ := hpk e
        exact ⟨e₁, c₁, by simp [regexpDownstream, hidx, hc, hp]⟩
      · obtain ⟨e, hu⟩ := hun
        exact ⟨e, c, by simp [regexpDownstream, hidx, hu]⟩
    obtain ⟨e, c₁, hd⟩ := hd
    refine ⟨e, ?_, ?_⟩
    · simp [RegexpNode.Match, hre, hd]
    · intro i hi
      simp only [RegexpNode.Match, hre, hd]
      rw [setIndices_lookup_mem _ _ _ _ hnd hi]
      exact (getD_some result i.Pos [] (hpos i hi)).symm
  · exact fullMatch_captures_segment ops nf hchf hpkf hunf

/-- Witness for C1: the digit node on path 42/x succeeds and maps id to
the group submatch 42; the catch-all node on path a/b succeeds and maps
k to the segment a. -/
theorem c1_witness :
    (∃ e, (RegexpNode.Match opsOk dNode [] ['4', '2', '/', 'x']).1 = .ok e ∧
      ∀ i ∈ dNode.indices,
        List.lookup i.Key (RegexpNode.Match opsOk dNode [] ['4', '2', '/', 'x']).2.2 =
          ([['4', '2'], ['4', '2']] : List GoString).get? i.Pos)
    ∧ (∃ e, (FullMatchRegexpNode.Match opsOk fNode [] ['a', '/', 'b']).1 = .ok e ∧
      List.lookup fNode.key
          (FullMatchRegexpNode.Match opsOk fNode [] ['a', '/', 'b']).2.2 =
        some (leadingSegment ['a', '/', 'b'])) := by
  have h := c1_match_success_captures opsOk dNode fNode
    (fun c p => ⟨0, c, rfl⟩) (fun e => ⟨e, rfl⟩) ⟨7, rfl⟩
    (fun c p => ⟨0, c, rfl⟩) (fun e => ⟨e, rfl⟩) ⟨7, rfl⟩
    (by simp [dNode])
  exact ⟨h.1 [] ['4', '2', '/', 'x'] [['4', '2'], ['4', '2']] (by decide) (by decide),
    h.2 [] ['a', '/', 'b'] (by decide)⟩

/-- Collaborator operations whose children matching fails with an
opaque error after writing a marker entry into the sink. -/
def opsChildErr : Collab Unit Unit Nat where
  cmatch := fun _ c _ => (.error (.external 3), Container.Set c "child" ['w'])
  pack := fun _ e => .ok e
  union := fun _ => .ok 7
  hmerge := fun a _ => (none, a)
  cmerge := fun a _ => (none, a)

/-- Collaborator operations whose terminal executor selection fails. -/
def opsUnionErr : Collab Unit Unit Nat where
  cmatch := fun _ c _ => (.ok 0, c)
  pack := fun _ e => .ok e
  union := fun _ => .error (.external 5)
  hmerge := fun a _ => (none, a)
  cmerge := fun a _ => (none, a)

/-- C3: for both node kinds, when the local segment match succeeds but
the downstream resolution fails (children delegation failing, handler
pack failing after children succeeded, or terminal executor selection
failing), Match returns that error unchanged, the node is unchanged and
the sink holds exactly what the downstream call left, with no capture
write from this node. -/
theorem c3_commit_on_success {H C E : Type} (ops : Collab H C E) :
    (∀ (n : RegexpNode H C) (c : Container) (path : GoString)
        (result : List GoString) (err : RouterError) (c₁ : Container),
      n.re (leadingSegment path) = some result →
      ((goIndex path < path.length →
        (ops.cmatch n.children c (path.drop (goIndex path)) = (.error err, c₁) →
          RegexpNode.Match ops n c path = (.error err, n, c₁))
        ∧ ∀ e, ops.cmatch n.children c (path.drop (goIndex path)) = (.ok e, c₁) →
            ops.pack n.handler e = .error err →
            RegexpNode.Match ops n c path = (.error err, n, c₁))
      ∧ (¬ goIndex path < path.length →
          ops.union n.handler = .error err →
          RegexpNode.Match ops n c path = (.error err, n, c))))
    ∧ (∀ (n : FullMatchRegexpNode H C) (c : Container) (path : GoString)
        (err : RouterError) (c₁ : Container),
      (goIndexSlash path > 0 →
        (ops.cmatch n.children c (path.drop (goIndexSlash path).toNat) = (.error err, c₁) →
          FullMatchRegexpNode.Match ops n c path = (.error err, n, c₁))
        ∧ ∀ e, ops.cmatch n.children c (path.drop (goIndexSlash path).toNat) = (.ok e, c₁) →
            ops.pack n.handler e = .error err →
            FullMatchRegexpNode.Match ops n c path = (.error err, n, c₁))
      ∧ (¬ goIndexSlash path > 0 →
          ops.union n.handler = .error err →
          FullMatchRegexpNode.Match ops n c path = (.error err, n, c))) := by
  constructor
  · intro n c path result err c₁ hre
    refine ⟨fun hidx => ⟨fun hc => ?_, fun e hc hp => ?_⟩, fun hidx hu => ?_⟩
    · simp [RegexpNode.Match, hre, regexpDownstream, hidx, hc]
    · simp [RegexpNode.Match, hre, regexpDownstream, hidx, hc, hp]
    · simp [RegexpNode.Match, hre, regexpDownstream, hidx, hu]
  · intro n c path err c₁
    refine ⟨fun hidx => ⟨fun hc => ?_, fun e hc hp => ?_⟩, fun hidx hu => ?_⟩
    · simp [FullMatchRegexpNode.Match, FullMatchRegexpNode.downstream, hidx, hc]
    · simp [FullMatchRegexpNode.Match, FullMatchRegexpNode.downstream, hidx, hc, hp]
    · simp [FullMatchRegexpNode.Match, FullMatchRegexpNode.downstream, hidx, hu]

/-- Witness for C3: on path 42/x the digit node locally matches, the
children delegation fails after writing its own marker entry, and Match
returns the children error with only the marker in the sink; on path x
the catch-all node fails terminal selection with the sink untouched. -/
theorem c3_witness :
    RegexpNode.Match opsChildErr dNode [] ['4', '2', '/', 'x'] =
      (.error (.external 3), dNode, [("child", ['w'])])
    ∧ FullMatchRegexpNode.Match opsUnionErr fNode [] ['x'] =
      (.error (.external 5), fNode, []) := by
  constructor
  · exact (((c3_commit_on_success opsChildErr).1 dNode [] ['4', '2', '/', 'x']
      [['4', '2'], ['4', '2']] (.external 3)
      (Container.Set [] "child" ['w']) (by decide)).1 (by decide)).1 rfl
  · exact ((c3_commit_on_success opsUnionErr).2 fNode [] ['x']
      (.external 5) []).2 (by decide) rfl

/-- C4 counterexample: on path /x (which begins with the separator) the
catch-all node succeeds through the terminal branch, but the sink maps
the key to the entire path /x, which is not the empty string the claim
announces. -/
theorem c4_cex :
    (FullMatchRegexpNode.Match opsOk fNode [] ['/', 'x']).1 = .ok 7
    ∧ List.lookup fNode.key
        (FullMatchRegexpNode.Match opsOk fNode [] ['/', 'x']).2.2 = some ['/', 'x']
    ∧ (['/', 'x'] : GoString) ≠ ([] : GoString) :=
  ⟨rfl, by decide, by decide⟩

/-- C4 amended: for every path that begins immediately with the
separator, the catch-all node takes the terminal branch, resolving the
terminal executor and never consulting the children, and on success the
sink maps the key to the entire path, which is empty only when the path
itself is empty. -/
theorem c4_leading_separator_terminal {H C E : Type} (ops : Collab H C E)
    (n : FullMatchRegexpNode H C) (c : Container) (path : GoString)
    (h : ∃ rest, path = '/' :: rest) :
    FullMatchRegexpNode.Match ops n c path =
      (match ops.union n.handler with
       | .error err => (.error err, n, c)
       | .ok e => (.ok e, n, Container.Set c n.key path)) := by
  obtain ⟨rest, rfl⟩ := h
  have h0 : goIndexSlash ('/' :: rest) = 0 := by simp [goIndexSlash]
  have hd : FullMatchRegexpNode.downstream ops n c ('/' :: rest) =
      (ops.union n.handler, ('/' :: rest).length, c) := by
    simp [FullMatchRegexpNode.downstream, h0]
  cases hu : ops.union n.handler with
  | error err => simp [FullMatchRegexpNode.Match, hd, hu]
  | ok e => simp [FullMatchRegexpNode.Match, hd, hu, List.take_length]

/-- Witness for C4 amended: on path /x with a succeeding terminal
selection the catch-all node returns executor 7 and maps k to /x. -/
theorem c4_witness :
    FullMatchRegexpNode.Match opsOk fNode [] ['/', 'x'] =
      (.ok 7, fNode, [("k", ['/', 'x'])]) :=
  (c4_leading_separator_terminal opsOk fNode [] ['/', 'x'] ⟨['x'], rfl⟩).trans rfl

/-- A second pattern node whose pattern source differs from dNode. -/
def dNode₂ : RegexpNode Unit Unit := { dNode with exp := "x" }

/-- A second catch-all node whose key differs from fNode. -/
def fNode₂ : FullMatchRegexpNode Unit Unit := { fNode with key := "q" }

/-- C5: merging two nodes of different concrete kinds fails with the
unknown-router-type error carrying the kind and concrete type name of
the other node; merging two pattern nodes with different pattern sources
fails with the pattern mismatch error reporting both patterns; merging
two catch-all nodes with different keys fails with the key mismatch
error reporting both keys. In every failing case the receiver is
returned unchanged. -/
theorem c5_merge_mismatch_errors {H C E : Type} (ops : Collab H C E) :
    (∀ (n : RegexpNode H C) (m : FullMatchRegexpNode H C),
      Router.Merge ops (.regexpNode n) (.fullMatchRegexpNode m) =
        (.error (.unknownRouterType RouteKind.Regexp "*router.fullMatchRegexpNode"),
          .regexpNode n))
    ∧ (∀ (n : FullMatchRegexpNode H C) (m : RegexpNode H C),
      Router.Merge ops (.fullMatchRegexpNode n) (.regexpNode m) =
        (.error (.unknownRouterType RouteKind.Regexp "*router.regexpNode"),
          .fullMatchRegexpNode n))
    ∧ (∀ (n m : RegexpNode H C), n.exp ≠ m.exp →
      Router.Merge ops (.regexpNode n) (.regexpNode m) =
        (.error (.unmatchedRouterRegexp n.exp m.exp), .regexpNode n))
    ∧ (∀ (n m : FullMatchRegexpNode H C), n.key ≠ m.key →
      Router.Merge ops (.fullMatchRegexpNode n) (.fullMatchRegexpNode m) =
        (.error (.unmatchedRouterKey n.key m.key), .fullMatchRegexpNode n)) := by
  refine ⟨fun n m => rfl, fun n m => rfl, fun n m h => ?_, fun n m h => ?_⟩
  · simp [Router.Merge, h]
  · simp [Router.Merge, h]

/-- Witness for C5: the four mismatch cases at concrete nodes. -/
theorem c5_witness :
    Router.Merge opsOk (.regexpNode dNode) (.fullMatchRegexpNode fNode) =
      (.error (.unknownRouterType RouteKind.Regexp "*router.fullMatchRegexpNode"),
        .regexpNode dNode)
    ∧ Router.Merge opsOk (.fullMatchRegexpNode fNode) (.regexpNode dNode) =
      (.error (.unknownRouterType RouteKind.Regexp "*router.regexpNode"),
        .fullMatchRegexpNode fNode)
    ∧ Router.Merge opsOk (.regexpNode dNode) (.regexpNode dNode₂) =
      (.error (.unmatchedRouterRegexp dNode.exp dNode₂.exp), .regexpNode dNode)
    ∧ Router.Merge opsOk (.fullMatchRegexpNode fNode) (.fullMatchRegexpNode fNode₂) =
      (.error (.unmatchedRouterKey fNode.key fNode₂.key), .fullMatchRegexpNode fNode) :=
  ⟨(c5_merge_mismatch_errors opsOk).1 dNode fNode,
    (c5_merge_mismatch_errors opsOk).2.1 fNode dNode,
    (c5_merge_mismatch_errors opsOk).2.2.1 dNode dNode₂ (by decide),
    (c5_merge_mismatch_errors opsOk).2.2.2 fNode fNode₂ (by decide)⟩

/-- Collaborator operations for the merge scenario: the handler merge
succeeds and accumulates both handler states, the children merge fails
with an opaque error after leaving a partially combined children state. -/
def opsMergeErr : Collab Nat Nat Nat where
  cmatch := fun _ c _ => (.ok 0, c)
  pack := fun _ e => .ok e
  union := fun _ => .ok 7
  hmerge := fun a b => (none, a + b)
  cmerge := fun a b => (some (.external 9), a * 10 + b)

/-- A pattern node with numeric collaborator states, for the merge
scenario. -/
def mNodeA : RegexpNode Nat Nat :=
  { handler := 1, children := 2, indices := [], exp := "p", re := fun _ => none }

/-- A second pattern node with the same pattern source. -/
def mNodeB : RegexpNode Nat Nat :=
  { handler := 3, children := 4, indices := [], exp := "p", re := fun _ => none }

/-- A catch-all node with numeric collaborator states. -/
def mfNodeA : FullMatchRegexpNode Nat Nat := { handler := 1, children := 2, key := "k" }

/-- A second catch-all node with the same key. -/
def mfNodeB : FullMatchRegexpNode Nat Nat := { handler := 3, children := 4, key := "k" }

/-- C6: merge is not atomic. For both node kinds, when the two nodes are
structurally compatible, the handler merge succeeds and the children
merge then fails, Merge returns the children error while the receiver
keeps the mutated handler state and the partially mutated children
state; nothing is rolled back. -/
theorem c6_merge_not_atomic {H C E : Type} (ops : Collab H C E) :
    (∀ (n m : RegexpNode H C) (h₁ : H) (c₁ : C) (err : RouterError),
      n.exp = m.exp →
      ops.hmerge n.handler m.handler = (none, h₁) →
      ops.cmerge n.children m.children = (some err, c₁) →
      Router.Merge ops (.regexpNode n) (.regexpNode m) =
        (.error err, .regexpNode { n with handler := h₁, children := c₁ }))
    ∧ (∀ (n m : FullMatchRegexpNode H C) (h₁ : H) (c₁ : C) (err : RouterError),
      n.key = m.key →
      ops.hmerge n.handler m.handler = (none, h₁) →
      ops.cmerge n.children m.children = (some err, c₁) →
      Router.Merge ops (.fullMatchRegexpNode n) (.fullMatchRegexpNode m) =
        (.error err, .fullMatchRegexpNode { n with handler := h₁, children := c₁ })) := by
  constructor
  · intro n m h₁ c₁ err he hh hc
    simp [Router.Merge, he, hh, hc]
  · intro n m h₁ c₁ err he hh hc
    simp [Router.Merge, he, hh, hc]

/-- Witness for C6: at the concrete nodes the handler merge accumulates
1 and 3 into 4, the children merge fails with the opaque error 9 after
leaving the partial state 24, and Merge returns the error with both
mutations retained in the receiver, for both node kinds. -/
theorem c6_witness :
    Router.Merge opsMergeErr (.regexpNode mNodeA) (.regexpNode mNodeB) =
      (.error (.external 9), .regexpNode { mNodeA with handler := 4, children := 24 })
    ∧ Router.Merge opsMergeErr (.fullMatchRegexpNode mfNodeA) (.fullMatchRegexpNode mfNodeB) =
      (.error (.external 9),
        .fullMatchRegexpNode { mfNodeA with handler := 4, children := 24 }) :=
  ⟨(c6_merge_not_atomic opsMergeErr).1 mNodeA mNodeB 4 24 (.external 9) rfl rfl rfl,
    (c6_merge_not_atomic opsMergeErr).2 mfNodeA mfNodeB 4 24 (.external 9) rfl rfl rfl⟩

/-- C7: the local match of the pattern node is unanchored. The node
accepts as soon as the matcher reports any (leftmost) match, with no
check that the match consumes the whole segment: acceptance depends only
on the matcher reporting some submatch list. Concretely, on the path
42abc the digit pattern matches only the leading part 42 of the segment
and Match still succeeds. -/
theorem c7_unanchored_match {H C E : Type} (ops : Collab H C E) :
    (∀ (n : RegexpNode H C) (c : Container) (path : GoString)
        (result : List GoString) (e : E) (c₁ : Container),
      n.re (leadingSegment path) = some result →
      regexpDownstream ops n c path (goIndex path) = (.ok e, c₁) →
      RegexpNode.Match ops n c path = (.ok e, n, setIndices c₁ n.indices result))
    ∧ (dNode.re (leadingSegment ['4', '2', 'a', 'b', 'c']) =
        some [['4', '2'], ['4', '2']]
      ∧ (['4', '2'] : GoString) ≠ leadingSegment ['4', '2', 'a', 'b', 'c']
      ∧ (RegexpNode.Match opsOk dNode [] ['4', '2', 'a', 'b', 'c']).1 = .ok 7) := by
  constructor
  · intro n c path result e c₁ hre hd
    simp [RegexpNode.Match, hre, hd]
  · exact ⟨by decide, by decide, rfl⟩

/-- Witness for C7: the unanchored acceptance applied at the concrete
digit node and path 42abc, whose segment is only partially covered. -/
theorem c7_witness :
    RegexpNode.Match opsOk dNode [] ['4', '2', 'a', 'b', 'c'] =
      (.ok 7, dNode, setIndices [] dNode.indices [['4', '2'], ['4', '2']]) :=
  (c7_unanchored_match opsOk).1 dNode [] ['4', '2', 'a', 'b', 'c']
    [['4', '2'], ['4', '2']] 7 [] (by decide) rfl

/-- C8 counterexample: Match of the catch-all node on the literal path
/a.b*c/x (which begins with the separator) maps the key to the whole
path /a.b*c/x, not to a.b*c as the claim announces. -/
theorem c8_cex :
    List.lookup fNode.key
        (FullMatchRegexpNode.Match opsOk fNode []
          ['/', 'a', '.', 'b', '*', 'c', '/', 'x']).2.2 =
      some ['/', 'a', '.', 'b', '*', 'c', '/', 'x']
    ∧ (some ['/', 'a', '.', 'b', '*', 'c', '/', 'x'] : Option GoString) ≠
      some ['a', '.', 'b', '*', 'c'] :=
  ⟨by decide, by decide⟩

/-- C8 amended: for every path with a non-empty leading segment the
catch-all node captures that segment verbatim, character for character,
with no regex interpretation of metacharacters; in particular matching
a.b*c/x captures a.b*c. -/
theorem c8_catchall_literal {H C E : Type} (ops : Collab H C E)
    (n : FullMatchRegexpNode H C)
    (hch : ∀ c p, ∃ e c₁, ops.cmatch n.children c p = (.ok e, c₁))
    (hpk : ∀ e, ∃ e₁, ops.pack n.handler e = .ok e₁)
    (hun : ∃ e, ops.union n.handler = .ok e) :
    (∀ (c : Container) (path : GoString), leadingSegment path ≠ [] →
      ∃ e, (FullMatchRegexpNode.Match ops n c path).1 = .ok e ∧
        List.lookup n.key (FullMatchRegexpNode.Match ops n c path).2.2 =
          some (leadingSegment path))
    ∧ List.lookup fNode.key
        (FullMatchRegexpNode.Match opsOk fNode []
          ['a', '.', 'b', '*', 'c', '/', 'x']).2.2 =
      some ['a', '.', 'b', '*', 'c'] := by
  exact ⟨fullMatch_captures_segment ops n hch hpk hun, by decide⟩

/-- Witness for C8 amended: the verbatim capture applied at the concrete
catch-all node and the metacharacter path a.b*c/x. -/
theorem c8_witness :
    ∃ e, (FullMatchRegexpNode.Match opsOk fNode []
        ['a', '.', 'b', '*', 'c', '/', 'x']).1 = .ok e ∧
      List.lookup fNode.key
          (FullMatchRegexpNode.Match opsOk fNode []
            ['a', '.', 'b', '*', 'c', '/', 'x']).2.2 =
        some (leadingSegment ['a', '.', 'b', '*', 'c', '/', 'x']) :=
  (c8_catchall_literal opsOk fNode
    (fun c p => ⟨0, c, rfl⟩) (fun e => ⟨e, rfl⟩) ⟨7, rfl⟩).1 []
    ['a', '.', 'b', '*', 'c', '/', 'x'] (by decide)

/-- C10: the catch-all node never fails because of its own segment:
every error Match returns is exactly an error produced by the children
delegation, by the handler pack step after the children succeeded, or by
the terminal executor selection; and on success the final sink is some
intermediate sink with exactly one entry written for the key of the
node, holding the captured slice of the path. -/
theorem c10_catchall_error_origin {H C E : Type} (ops : Collab H C E)
    (n : FullMatchRegexpNode H C) (c : Container) (path : GoString) :
    (∀ err, (FullMatchRegexpNode.Match ops n c path).1 = .error err →
      (goIndexSlash path > 0 ∧
        ((∃ c₁, ops.cmatch n.children c (path.drop (goIndexSlash path).toNat) =
            (.error err, c₁))
          ∨ (∃ e c₁, ops.cmatch n.children c (path.drop (goIndexSlash path).toNat) =
              (.ok e, c₁) ∧ ops.pack n.handler e = .error err)))
      ∨ (¬ goIndexSlash path > 0 ∧ ops.union n.handler = .error err))
    ∧ (∀ e, (FullMatchRegexpNode.Match ops n c path).1 = .ok e →
      ∃ c₁, (FullMatchRegexpNode.Match ops n c path).2.2 =
        Container.Set c₁ n.key
          (path.take (if goIndexSlash path > 0 then (goIndexSlash path).toNat
            else path.length))) := by
  constructor
  · intro err he
    by_cases hb : goIndexSlash path > 0
    · left
      refine ⟨hb, ?_⟩
      rcases hc : ops.cmatch n.children c (path.drop (goIndexSlash path).toNat)
        with ⟨r, c₁⟩
      cases r with
      | error err₁ =>
        left
        have hm : FullMatchRegexpNode.Match ops n c path = (.error err₁, n, c₁) := by
          simp [FullMatchRegexpNode.Match, FullMatchRegexpNode.downstream, hb, hc]
        rw [hm] at he
        simp only [Except.error.injEq] at he
        subst he
        exact ⟨c₁, rfl⟩
      | ok e =>
        right
        cases hp : ops.pack n.handler e with
        | error err₁ =>
          have hm : FullMatchRegexpNode.Match ops n c path = (.error err₁, n, c₁) := by
            simp [FullMatchRegexpNode.Match, FullMatchRegexpNode.downstream, hb, hc, hp]
          rw [hm] at he
          simp only [Except.error.injEq] at he
          subst he
          exact ⟨e, c₁, rfl, hp⟩
        | ok e₁ =>
          have hm : FullMatchRegexpNode.Match ops n c path =
              (.ok e₁, n, Container.Set c₁ n.key (path.take (goIndexSlash path).toNat)) := by
            simp [FullMatchRegexpNode.Match, FullMatchRegexpNode.downstream, hb, hc, hp]
          rw [hm] at he
          simp at he
    · right
      refine ⟨hb, ?_⟩
      cases hu : ops.union n.handler with
      | error err₁ =>
        have hm : FullMatchRegexpNode.Match ops n c path = (.error err₁, n, c) := by
          simp [FullMatchRegexpNode.Match, FullMatchRegexpNode.downstream, hb, hu]
        rw [hm] at he
        simp only [Except.error.injEq] at he
        subst he
        rfl
      | ok e =>
        have hm : FullMatchRegexpNode.Match ops n c path =
            (.ok e, n, Container.Set c n.key (path.take path.length)) := by
          simp [FullMatchRegexpNode.Match, FullMatchRegexpNode.downstream, hb, hu]
        rw [hm] at he
        simp at he
  · intro e he
    by_cases hb : goIndexSlash path > 0
    · rcases hc : ops.cmatch n.children c (path.drop (goIndexSlash path).toNat)
        with ⟨r, c₁⟩
      cases r with
      | error err₁ =>
        have hm : FullMatchRegexpNode.Match ops n c path = (.error err₁, n, c₁) := by
          simp [FullMatchRegexpNode.Match, FullMatchRegexpNode.downstream, hb, hc]
        rw [hm] at he
        simp at he
      | ok e₀ =>
        cases hp : ops.pack n.handler e₀ with
        | error err₁ =>
          have hm : FullMatchRegexpNode.Match ops n c path = (.error err₁, n, c₁) := by
            simp [FullMatchRegexpNode.Match, FullMatchRegexpNode.downstream, hb, hc, hp]
          rw [hm] at he
          simp at he
        | ok e₁ =>
          have hm : FullMatchRegexpNode.Match ops n c path =
              (.ok e₁, n, Container.Set c₁ n.key (path.take (goIndexSlash path).toNat)) := by
            simp [FullMatchRegexpNode.Match, FullMatchRegexpNode.downstream, hb, hc, hp]
          refine ⟨c₁, ?_⟩
          rw [hm]
          simp [hb]
    · cases hu : ops.union n.handler with
      | error err₁ =>
        have hm : FullMatchRegexpNode.Match ops n c path = (.error err₁, n, c) := by
          simp [FullMatchRegexpNode.Match, FullMatchRegexpNode.downstream, hb, hu]
        rw [hm] at he
        simp at he
      | ok e₁ =>
        have hm : FullMatchRegexpNode.Match ops n c path =
            (.ok e₁, n, Container.Set c n.key (path.take path.length)) := by
          simp [FullMatchRegexpNode.Match, FullMatchRegexpNode.downstream, hb, hu]
        refine ⟨c, ?_⟩
        rw [hm]
        simp [hb]

/-- Witness for C10: the failing terminal selection on path x traces the
error to the terminal branch, and the successful match on path a/b
writes the single capture entry. -/
theorem c10_witness :
    ((goIndexSlash ['x'] > 0 ∧
      ((∃ c₁, opsUnionErr.cmatch fNode.children []
          ((['x'] : GoString).drop (goIndexSlash ['x']).toNat) =
            (.error (.external 5), c₁))
        ∨ (∃ e c₁, opsUnionErr.cmatch fNode.children []
            ((['x'] : GoString).drop (goIndexSlash ['x']).toNat) = (.ok e, c₁)
            ∧ opsUnionErr.pack fNode.handler e = .error (.external 5))))
    ∨ (¬ goIndexSlash ['x'] > 0 ∧ opsUnionErr.union fNode.handler = .error (.external 5)))
    ∧ (∃ c₁, (FullMatchRegexpNode.Match opsOk fNode [] ['a', '/', 'b']).2.2 =
        Container.Set c₁ fNode.key
          ((['a', '/', 'b'] : GoString).take
            (if goIndexSlash ['a', '/', 'b'] > 0 then (goIndexSlash ['a', '/', 'b']).toNat
              else (['a', '/', 'b'] : GoString).length))) :=
  ⟨(c10_catchall_error_origin opsUnionErr fNode [] ['x']).1 (.external 5) rfl,
    (c10_catchall_error_origin opsOk fNode [] ['a', '/', 'b']).2 0 rfl⟩

end Nirvana
